import Mathlib

/-!
Verification of the rewindify frontend (React) and of the spec-modelled
ingestion/aggregation backend of the Spotify listening-history dashboard.

Strings handled character-wise by the JavaScript code (file names, chat
messages) are embedded as `List Char`; the JavaScript string methods used by
the code (`toLowerCase`, `startsWith`, `endsWith`, `includes`, `trim`,
`slice`) are embedded as executable functions on `List Char`.
-/

namespace Rewindify

/-- Embedding of JavaScript `s.toLowerCase()` for the ASCII names the code
handles. -/
def lowerName (s : List Char) : List Char :=
  s.map Char.toLower

/-- Embedding of JavaScript `s.startsWith(p)`. -/
def chStartsWith (s p : List Char) : Bool :=
  decide (s.take p.length = p)

/-- Embedding of JavaScript `s.endsWith(p)`. -/
def chEndsWith (s p : List Char) : Bool :=
  decide (p.length ≤ s.length) && decide (s.drop (s.length - p.length) = p)

/-- Embedding of JavaScript `s.includes(p)`: some suffix of `s` starts
with `p`. -/
def chIncludes (s p : List Char) : Bool :=
  (List.range (s.length + 1)).any fun i => chStartsWith (s.drop i) p

/-- Whitespace as stripped by JavaScript `s.trim()` on the code's inputs. -/
def isWs (c : Char) : Bool :=
  c == ' ' || c == '\t' || c == '\n' || c == '\r'

/-- Embedding of JavaScript `s.trim()`. -/
def jsTrim (s : List Char) : List Char :=
  ((s.dropWhile isWs).reverse.dropWhile isWs).reverse

/-! ## FolderUpload.jsx: the file filter (claim C5)

`handleFolderSelect` filters the selected files before anything is uploaded
(FolderUpload.jsx lines 28-55): system files are skipped, then non-JSON
files, then files whose lowercase name does not start with
`streaming_history_audio`. -/

/-- Embedding of the filter predicate of `handleFolderSelect`
(FolderUpload.jsx lines 28-55), deciding whether one selected file is kept. -/
def isValidFile (name : List Char) : Bool :=
  let fileName := lowerName name
  if fileName = (".ds_store").toList ∨ fileName = ("thumbs.db").toList ∨
      fileName = ("desktop.ini").toList ∨ chStartsWith fileName (("._").toList) then
    false
  else if !(chEndsWith fileName ((".json").toList)) then
    false
  else if !(chStartsWith fileName (("streaming_history_audio").toList)) then
    false
  else
    true

/-- Embedding of `validFiles` (FolderUpload.jsx line 28): the sub-list of
selected files that passes the filter. -/
def validFiles (files : List (List Char)) : List (List Char) :=
  files.filter isValidFile

/-- The spec-side acceptance condition of claim C5, written as a conjunction:
the lowercase name ends with `.json`, begins with `streaming_history_audio`,
and is not a system file. -/
def acceptSpecC5 (name : List Char) : Prop :=
  chEndsWith (lowerName name) ((".json").toList) = true ∧
  chStartsWith (lowerName name) (("streaming_history_audio").toList) = true ∧
  ¬(lowerName name = (".ds_store").toList ∨ lowerName name = ("thumbs.db").toList ∨
    lowerName name = ("desktop.ini").toList ∨
    chStartsWith (lowerName name) (("._").toList) = true)

/-! ## Chatbot.jsx (second revision): intent sanitizing (claim C9) -/

/-- The intent shape sent to the resolver by the second revision of
`Chatbot.jsx` (`handleSend`), after parsing the external interpreter's JSON. -/
structure Intent where
  entity_type : String
  name : String
  artist : Option String
  album : Option String
  metric : String
  timeframe : String
  time_amount : Option String
deriving DecidableEq

/-- Embedding of Chatbot.jsx lines 369-375 (second revision): the parsed
intent's `artist` and `album` fields are forced to `null` for `song` intents
when the lowercased user message does not contain the word. -/
def sanitizeParsedIntent (userMsg : List Char) (parsed : Intent) : Intent :=
  let msgLower := lowerName userMsg
  let p1 :=
    if !(chIncludes msgLower (("artist").toList)) && (parsed.entity_type == "song") then
      { parsed with artist := none }
    else parsed
  let p2 :=
    if !(chIncludes msgLower (("album").toList)) && (p1.entity_type == "song") then
      { p1 with album := none }
    else p1
  p2

/-! ## App.jsx: `handleClearData` and the session-storage frame
(claims C6 and C10) -/

/-- A calendar date, standing for the `"YYYY-MM-DD"` strings the backend's
daily aggregates carry. -/
structure Ymd where
  year : Nat
  month : Nat
  day : Nat
deriving DecidableEq

/-- One entry of the heatmap series kept in the `data` state of `App.jsx`:
a date and its rounded listening seconds. -/
structure HeatEntry where
  date : Ymd
  count : Int
deriving DecidableEq

/-- One item of an all-time top list, as rendered by `AllTimeStats.jsx`. -/
structure StatItem where
  name : String
  artist_name : Option String
  total_ms : Nat
  play_count : Nat
deriving DecidableEq

/-- The two orderings kept per entity type in the `allTimeStats` state. -/
structure MetricLists where
  time : List StatItem
  count : List StatItem
deriving DecidableEq

/-- The `allTimeStats` state shape of `App.jsx`. -/
structure AllStats where
  artists : MetricLists
  songs : MetricLists
  albums : MetricLists
deriving DecidableEq

/-- The empty stats object `handleClearData` resets `allTimeStats` to
(App.jsx lines 127-131). -/
def emptyAllStats : AllStats :=
  ⟨⟨[], []⟩, ⟨[], []⟩, ⟨[], []⟩⟩

/-- The React state of `App.jsx` touched by `handleClearData`. -/
structure AppState where
  data : List HeatEntry
  selectedYear : String
  allTimeStats : Option AllStats
  chatbotOpen : Bool
deriving DecidableEq

/-- The four `sessionStorage` keys the code reads and writes. -/
structure SessionStore where
  spotifyData : Option String
  allTimeStats : Option String
  selectedYear : Option String
  sessionId : Option String
deriving DecidableEq

/-- Embedding of `handleClearData` (App.jsx lines 99-133): removes the three
cached keys from session storage, requests a backend clear when a session id
is stored, and resets the React state. The returned `Bool` records whether
the backend `/clear_data` request was issued. -/
def handleClearData (st : AppState) (ss : SessionStore) :
    AppState × SessionStore × Bool :=
  let ss' : SessionStore :=
    { ss with spotifyData := none, allTimeStats := none, selectedYear := none }
  let backendClearRequested := ss.sessionId.isSome
  (⟨[], "", some emptyAllStats, false⟩, ss', backendClearRequested)

/-- Embedding of `sessionStorage.setItem("sessionId", sessionId)` in
`handleFolderSelect` (FolderUpload.jsx line 96), run after a new session is
created by an upload. -/
def storeSessionId (ss : SessionStore) (sid : String) : SessionStore :=
  { ss with sessionId := some sid }

/-! ## The backend engine, modelled from the spec (claims C2 and parts of
C6/C7)

The repository's files contain no backend source (only the frontend is under
version control here), so the Normalizer/Store/Aggregation core is modelled
from the spec: PlayEvents with the qualifying-event filter (spec section 3),
idempotent ingestion under the dedupe key (timestamp, track name, duration)
(spec section 4.1), and the daily/entity aggregates (spec section 4.3). -/

/-- Modelled from the spec: a raw play event as normalized by the backend
(spec section 3, `PlayEvent`). The `date` field is the UTC calendar date
parsed from the timestamp; `music` records the non-music flag used by the
qualifying filter. -/
structure RawEvent where
  ts : String
  date : Ymd
  track : Option String
  artist : String
  album : String
  ms : Nat
  music : Bool
deriving DecidableEq

/-- Modelled from the spec: the documented deterministic dedupe key, a
combination of timestamp, track name and duration (spec sections 4.1 and 9). -/
def dedupeKey (e : RawEvent) : String × Option String × Nat :=
  (e.ts, e.track, e.ms)

/-- Modelled from the spec: the qualifying-event filter — music entries with
a track name and positive duration (spec section 3 and glossary). -/
def qualifying (e : RawEvent) : Bool :=
  e.music && e.track.isSome && decide (0 < e.ms)

/-- Modelled from the spec: ingesting one event into the session's store —
an event whose dedupe key is already present is dropped silently
(`DataConflictError` policy, spec section 7). -/
def applyEvent (s : List RawEvent) (e : RawEvent) : List RawEvent :=
  if s.any fun x => decide (dedupeKey x = dedupeKey e) then s else s ++ [e]

/-- Modelled from the spec: ingesting one chunk of raw events into the
session's store (spec section 4.1). -/
def ingestChunk (s : List RawEvent) (c : List RawEvent) : List RawEvent :=
  c.foldl applyEvent s

/-- The qualifying events of a store. -/
def qualEvents (s : List RawEvent) : List RawEvent :=
  s.filter qualifying

/-- The session's qualifying-event count. -/
def qualCount (s : List RawEvent) : Nat :=
  (qualEvents s).length

/-- Sum of `ms_played` over the qualifying events of one date. -/
def sumMsOn (s : List RawEvent) (d : Ymd) : Nat :=
  (((qualEvents s).filter fun e => decide (e.date = d)).map (·.ms)).sum

/-- Modelled from the spec: `DailyAggregate.total_seconds =
round(sum(ms_played)/1000)` over qualifying events for that date and session
(spec section 3). -/
def dailyTotalSeconds (s : List RawEvent) (d : Ymd) : Int :=
  round ((sumMsOn s d : ℚ) / 1000)

/-- Whether a qualifying event counts towards the entity `(etype, nm)`:
songs match by track name, artists by artist name, albums by album name
(spec section 4.3). -/
def matchesEntity (etype : String) (nm : String) (e : RawEvent) : Bool :=
  if etype == "song" then e.track == some nm
  else if etype == "artist" then e.artist == nm
  else e.album == nm

/-- One ranking row of the all-time aggregation: total time, play count and
the first-occurrence timestamp used by the deterministic tie-break. -/
structure AggRow where
  name : String
  total_ms : Nat
  play_count : Nat
  firstTs : Option String
deriving DecidableEq

/-- The distinct entity names occurring in a store's qualifying events. -/
def entityNames (s : List RawEvent) (etype : String) : List String :=
  if etype == "song" then ((qualEvents s).filterMap (·.track)).dedup
  else if etype == "artist" then ((qualEvents s).map (·.artist)).dedup
  else ((qualEvents s).map (·.album)).dedup

/-- The ranking row of one entity name over a store. -/
def mkRow (s : List RawEvent) (etype : String) (nm : String) : AggRow :=
  let evs := (qualEvents s).filter (matchesEntity etype nm)
  { name := nm
    total_ms := (evs.map (·.ms)).sum
    play_count := evs.length
    firstTs := (evs.map (·.ts)).foldl
      (fun acc t => match acc with
        | none => some t
        | some u => if (compare t u).isLT then some t else some u) none }

/-- The metric value of a row: `time` sums `ms_played`, `count` counts
qualifying events (spec section 4.3). -/
def metricValue (metric : String) (r : AggRow) : Nat :=
  if metric == "time" then r.total_ms else r.play_count

/-- Modelled from the spec: the deterministic ordering of the all-time
ranking — larger metric first, then earlier first-occurrence timestamp, then
lexicographic name order (spec section 4.3). -/
def aggBefore (metric : String) (a b : AggRow) : Bool :=
  metricValue metric b < metricValue metric a ||
    (metricValue metric a == metricValue metric b &&
      ((compare a.firstTs b.firstTs).isLT ||
        (a.firstTs == b.firstTs && a.name ≤ b.name)))

/-- Modelled from the spec: the all-time top-N ranking (default N = 10) of
one entity type under one ordering (spec section 4.3). -/
def topTen (s : List RawEvent) (etype metric : String) : List AggRow :=
  (((entityNames s etype).map (mkRow s etype)).mergeSort (aggBefore metric)).take 10

/-! ## FolderUpload.jsx: splitting large files into chunks (claim C1) -/

/-- The 8MB chunk limit of `handleFolderSelect` (FolderUpload.jsx line 101). -/
def MAX_CHUNK_SIZE : Nat := 8 * 1024 * 1024

/-- One upload chunk as built by `handleFolderSelect`: its record slice and
the `(originalName, chunkIndex, totalChunks)` tag (FolderUpload.jsx lines
122-124 and 163-170). -/
structure Chunk (α : Type) where
  records : List α
  originalName : List Char
  chunkIndex : Nat
  totalChunks : Nat
deriving DecidableEq

/-- Embedding of JavaScript `l.slice(start, stop)`. -/
def jsSlice (l : List α) (start stop : Nat) : List α :=
  (l.take stop).drop start

/-- Embedding of the per-file chunking of `handleFolderSelect`
(FolderUpload.jsx lines 120-173): a file at most `MAX_CHUNK_SIZE` bytes is a
single chunk; a larger file is parsed and its record array is split into
`ceil(size / MAX_CHUNK_SIZE)` slices of `ceil(n / totalChunks)` records. -/
def splitFile (name : List Char) (size : Nat) (jsonData : List α) :
    List (Chunk α) :=
  if size ≤ MAX_CHUNK_SIZE then
    [{ records := jsonData, originalName := name, chunkIndex := 0, totalChunks := 1 }]
  else
    let totalChunks := (size + MAX_CHUNK_SIZE - 1) / MAX_CHUNK_SIZE
    let recordsPerChunk := (jsonData.length + totalChunks - 1) / totalChunks
    (List.range totalChunks).map fun chunkIndex =>
      { records := jsSlice jsonData (chunkIndex * recordsPerChunk)
          (min (chunkIndex * recordsPerChunk + recordsPerChunk) jsonData.length)
        originalName := name
        chunkIndex := chunkIndex
        totalChunks := totalChunks }

/-! ## Definitions continue below; theorems follow at the end of the file. -/

/-! ## App.jsx: the year filter over the daily series (claim C3)

`filteredData` (App.jsx lines 148-150) keeps the entries whose
`new Date(d.date).getFullYear().toString()` equals the selected year.
A date-only string parses as the UTC-midnight instant of that date, and
`getFullYear` reads the calendar year of that instant in the environment's
local timezone. The calendar arithmetic is embedded through serial day
numbers (proleptic Gregorian, as the ECMAScript Date specification
defines). -/

/-- The serial day number of a proleptic-Gregorian date, counted from
0000-03-01, for years at least 1 (era/year-of-era decomposition of the
standard civil-from-days algorithm). -/
def daysFromCivil (dt : Ymd) : Nat :=
  let y := if dt.month ≤ 2 then dt.year - 1 else dt.year
  let era := y / 400
  let yoe := y % 400
  let mp := if 2 < dt.month then dt.month - 3 else dt.month + 9
  let doy := (153 * mp + 2) / 5 + (dt.day - 1)
  let doe := yoe * 365 + yoe / 4 - yoe / 100 + doy
  era * 146097 + doe

/-- The calendar year containing serial day `z` (inverse direction of
`daysFromCivil`). -/
def yearFromDays (z : Nat) : Nat :=
  let era := z / 146097
  let doe := z % 146097
  let yoe := (doe - doe / 1460 + doe / 36524 - doe / 146096) / 365
  let y := era * 400 + yoe
  let doy := doe - (365 * yoe + yoe / 4 - yoe / 100)
  let mp := (5 * doy + 2) / 153
  let m := if mp < 10 then mp + 3 else mp - 9
  if m ≤ 2 then y + 1 else y

/-- Gregorian leap-year test. -/
def isLeapYear (y : Nat) : Bool :=
  decide (y % 4 = 0 ∧ (y % 100 ≠ 0 ∨ y % 400 = 0))

/-- Days in one month of the proleptic Gregorian calendar. -/
def daysInMonth (y m : Nat) : Nat :=
  if m = 2 then (if isLeapYear y then 29 else 28)
  else if m = 4 ∨ m = 6 ∨ m = 9 ∨ m = 11 then 30
  else 31

/-- A well-formed calendar date (as every `"YYYY-MM-DD"` date string the
backend emits denotes). -/
def validDate (dt : Ymd) : Prop :=
  1 ≤ dt.month ∧ dt.month ≤ 12 ∧ 1 ≤ dt.day ∧
    dt.day ≤ daysInMonth dt.year dt.month ∧ 1 ≤ dt.year

/-- The leap-day correction inside `yearFromDays`: day-of-era minus the
century-pattern adjustments. -/
def fCorr (D : Nat) : Nat :=
  D - D / 1460 + D / 36524 - D / 146096

/-- Length of the March-to-February cycle starting at year-of-era `yoe`. -/
def cycleLen (yoe : Nat) : Nat :=
  if (yoe + 1) % 4 = 0 ∧ ((yoe + 1) % 100 ≠ 0 ∨ yoe = 399) then 366 else 365

/-- The year-of-era recovery identity of `yearFromDays`, checked at the two
endpoint days of the cycle of `yoe` (monotonicity of `fCorr` extends it to
the whole cycle). -/
def yoeEndsCheck (yoe : Nat) : Bool :=
  decide (fCorr (yoe * 365 + yoe / 4 - yoe / 100) / 365 = yoe) &&
    decide (fCorr (yoe * 365 + yoe / 4 - yoe / 100 + (cycleLen yoe - 1)) / 365 =
      yoe)

/-- The endpoint checks over every year-of-era below `k`. -/
def yoeEndsCheckAll : Nat → Bool
  | 0 => true
  | k + 1 => yoeEndsCheck k && yoeEndsCheckAll k

/-- Embedding of `new Date(dateString).getFullYear()` for a date-only
string: parsing yields the UTC-midnight instant of the date, and
`getFullYear` reads the calendar year of that instant shifted into the local
timezone, `tzOffsetMin` minutes west of UTC (the value JavaScript
`getTimezoneOffset()` reports, 0 in a UTC environment). -/
def jsDateFullYear (dt : Ymd) (tzOffsetMin : Nat) : Nat :=
  yearFromDays ((daysFromCivil dt * 1440 - tzOffsetMin) / 1440)

/-- Embedding of `filteredData` (App.jsx lines 148-150), evaluated in an
environment `tzOffsetMin` minutes west of UTC. -/
def filteredData (data : List HeatEntry) (selectedYear : String)
    (tzOffsetMin : Nat) : List HeatEntry :=
  data.filter fun d => toString (jsDateFullYear d.date tzOffsetMin) == selectedYear

/-! ## App.jsx: formatting the uploaded daily series (claim C7) -/

/-- One element of the `/upload` response's daily-aggregate array, as
consumed by `handleUploadComplete`. -/
structure BackendDaily where
  date : Ymd
  total_seconds : ℚ
deriving DecidableEq

/-- The sort comparator of `handleUploadComplete` (App.jsx line 66):
`(a, b) => new Date(a.date) - new Date(b.date)` keeps `a` before `b` exactly
when `a`'s day number does not exceed `b`'s. -/
def dailyDateLe (a b : BackendDaily) : Bool :=
  decide (daysFromCivil a.date ≤ daysFromCivil b.date)

/-- Embedding of the formatting of `handleUploadComplete` (App.jsx lines
65-70): sort ascending by date, then map each entry to
`{date, count: Math.round(entry.total_seconds)}`. JavaScript's stable
`Array.prototype.sort` is embedded as `mergeSort`; `Math.round` on the
non-negative totals is `round`. -/
def formatDailyEntries (dataArray : List BackendDaily) : List HeatEntry :=
  (dataArray.mergeSort dailyDateLe).map fun e =>
    { date := e.date, count := round e.total_seconds }

/-- The distinct dates carrying qualifying events of a session. -/
def sessionDates (s : List RawEvent) : List Ymd :=
  ((qualEvents s).map (·.date)).dedup

/-- Modelled from the spec: the daily-aggregate series the backend returns
for a session — one entry per distinct date with qualifying events, with
`total_seconds = round(sum(ms_played)/1000)` (spec section 3). -/
def backendDailySeries (s : List RawEvent) : List BackendDaily :=
  (sessionDates s).map fun d =>
    { date := d, total_seconds := (dailyTotalSeconds s d : ℚ) }

/-! ## FolderUpload.jsx: the sequential chunk-upload loop (claim C4)

`handleFolderSelect` uploads the chunks in a `for` loop (lines 182-236): a
non-ok response throws, the `catch` only logs, and `onUploadComplete` runs
only after the loop finishes. The network is modelled as an oracle
`resp : Nat → Option (Option (List α))`: `none` is a non-ok response for
that chunk index, `some d` a successful response whose optional `data`
field is `d`. -/

/-- The accumulated `allData` of the upload loop: `none` when some chunk's
response was non-ok (the loop throws and `onUploadComplete` is never
called), `some` the concatenation of the chunks' data otherwise. -/
def uploadLoop (resp : Nat → Option (Option (List α))) :
    List Nat → List α → Option (List α)
  | [], acc => some acc
  | i :: rest, acc =>
    match resp i with
    | none => none
    | some d => uploadLoop resp rest (acc ++ d.getD [])

/-- The chunk indices for which a request is actually sent: the loop stops
with the first chunk whose response is non-ok. -/
def sentChunks (resp : Nat → Option (Option (List α))) : List Nat → List Nat
  | [] => []
  | i :: rest =>
    match resp i with
    | none => [i]
    | some _ => i :: sentChunks resp rest

/-- The data contributed by chunk `i` on success (`[]` when the response has
no `data` field, mirroring the `if (chunkData.data)` guard at line 233). -/
def chunkData (resp : Nat → Option (Option (List α))) (i : Nat) : List α :=
  match resp i with
  | some d => d.getD []
  | none => []

/-- Embedding of the whole upload pass of `handleFolderSelect`: when session
creation fails nothing is sent and no result is produced; otherwise the
chunks `0, ..., total - 1` are uploaded in sequence. Returns the chunk
indices sent and the accumulated result handed to `onUploadComplete`
(`none` means the callback is never invoked). -/
def uploadProcess (sessionOk : Bool) (resp : Nat → Option (Option (List α)))
    (total : Nat) : List Nat × Option (List α) :=
  if sessionOk then
    (sentChunks resp (List.range total), uploadLoop resp (List.range total) [])
  else ([], none)

/-! ## Chatbot.jsx (first revision): the regex question patterns (claim C8)

`handleSend` (first revision, lines 36-216) matches the trimmed message
against five anchored case-insensitive patterns; in every one the year group
is a final optional `(?: in (\d{4}))?$` after a lazy name group, so a year
is captured exactly when the text ends with `" in "` and four digits after a
nonempty stem. Each branch then sets `year = match[k] || "all"` and issues
the query with `timeframe=${year}`. -/

/-- Case-insensitive literal match at the front of `s` (the patterns'
literals are lowercase and carry the `i` flag): the original-case remainder,
or `none`. -/
def dropLitCI (lit s : List Char) : Option (List Char) :=
  if lowerName (s.take lit.length) = lit then some (s.drop lit.length) else none

/-- First alternative of a regex alternation that matches at the front. -/
def dropAltCI : List (List Char) → List Char → Option (List Char)
  | [], _ => none
  | l :: ls, s =>
    match dropLitCI l s with
    | some r => some r
    | none => dropAltCI ls s

/-- The optional `(?:ed)?` of `listen(?:ed)?` followed by the literal `lit`,
with the regex's backtracking: prefer consuming `ed`, fall back when the
continuation fails. -/
def dropOptEd (lit s : List Char) : Option (List Char) :=
  match dropLitCI (("ed").toList) s with
  | some s2 =>
    match dropLitCI lit s2 with
    | some v => some v
    | none => dropLitCI lit s
  | none => dropLitCI lit s

/-- The optional comma of `song,? ` and `album,? `, then the mandatory
space, with backtracking over the comma. -/
def dropCommaSpace (s : List Char) : Option (List Char) :=
  match dropLitCI ((",").toList) s with
  | some r =>
    match dropLitCI ((" ").toList) r with
    | some v => some v
    | none => dropLitCI ((" ").toList) s
  | none => dropLitCI ((" ").toList) s

/-- ASCII digit test for the `\d{4}` year group. -/
def isDigitCh (c : Char) : Bool :=
  decide ('0' ≤ c) && decide (c ≤ '9')

/-- The final `(.+?)(?: in (\d{4}))?$` of the patterns: the year is captured
exactly when the text ends with `" in "` and four digits preceded by a
nonempty stem; otherwise the whole text is the lazy group's capture. -/
def splitYearSuffix (s : List Char) : List Char × Option (List Char) :=
  if 9 ≤ s.length then
    let tail := s.drop (s.length - 8)
    if lowerName (tail.take 4) = ((" in ").toList) ∧ (tail.drop 4).all isDigitCh then
      (s.take (s.length - 8), some (tail.drop 4))
    else (s, none)
  else (s, none)

/-- The split point of the optional `(?: by (.+?))?` group: the earliest
`" by "` occurrence with a nonempty song capture before it and a nonempty
artist capture after it. -/
def findBySplit (rest : List Char) : Option Nat :=
  (List.range' 1 rest.length).find? fun p =>
    decide (lowerName ((rest.drop p).take 4) = ((" by ").toList)) &&
      decide (p + 5 ≤ rest.length)

/-- Captures of `(.+?)(?: by (.+?))?(?: in (\d{4}))?$` on the text after the
fixed head, following the engine's preference order: shortest song capture
first, the optional groups preferred present. Returns
`(song, artist?, year?)`. -/
def parseSongByYear (rest : List Char) :
    Option (List Char × Option (List Char) × Option (List Char)) :=
  if rest.length = 0 then none
  else
    match findBySplit rest, splitYearSuffix rest with
    | some p, (stem, some y) =>
      if p ≤ rest.length - 8 then
        let caps := splitYearSuffix (rest.drop (p + 4))
        some (rest.take p, some caps.1, caps.2)
      else some (stem, none, some y)
    | some p, (_, none) =>
      let caps := splitYearSuffix (rest.drop (p + 4))
      some (rest.take p, some caps.1, caps.2)
    | none, (stem, some y) => some (stem, none, some y)
    | none, (_, none) => some (rest, none, none)

/-- The query-string parameters of a `/chatbot/query` request issued by the
first-revision `handleSend`. -/
structure ChatQuery where
  entity_type : String
  name : String
  artist : Option String
  timeframe : String
  metric : String
  time_amount : Option String
deriving DecidableEq

/-- The text after the head of the two song-count patterns:
`how many times (?:have|did) i listen(?:ed)? to the song,? `. -/
def songCountRest (msg : List Char) : Option (List Char) :=
  (dropLitCI (("how many times ").toList) msg).bind fun s1 =>
  (dropAltCI [("have").toList, ("did").toList] s1).bind fun s2 =>
  (dropLitCI ((" i listen").toList) s2).bind fun s3 =>
  (dropOptEd ((" to the song").toList) s3).bind fun s4 =>
  dropCommaSpace s4

/-- The captured unit and the remainder after
`how many (minutes|hours) (?:have|did) i listen`. -/
def timeHead (msg : List Char) : Option (List Char × List Char) :=
  (match dropLitCI (("how many minutes ").toList) msg with
   | some r => some ((("minutes").toList), r)
   | none =>
     match dropLitCI (("how many hours ").toList) msg with
     | some r => some ((("hours").toList), r)
     | none => none).bind fun ur =>
  (dropAltCI [("have").toList, ("did").toList] ur.2).bind fun s2 =>
  (dropLitCI ((" i listen").toList) s2).map fun s3 => (ur.1, s3)

/-- Branch 1, `matchSongCountArtist` (lines 37-86): song count, optional
artist, optional year. -/
def matchSongCountArtistQuery (msg : List Char) : Option ChatQuery :=
  (songCountRest msg).bind fun rest =>
  (parseSongByYear rest).map fun caps =>
    { entity_type := "song", name := String.mk (jsTrim caps.1),
      artist := some (String.mk (jsTrim (caps.2.1.getD []))),
      timeframe := (caps.2.2.map String.mk).getD "all",
      metric := "count", time_amount := none }

/-- Branch 2, `matchSongCount` (lines 41-114): song count, optional year. -/
def matchSongCountQuery (msg : List Char) : Option ChatQuery :=
  (songCountRest msg).bind fun rest =>
  if rest.length = 0 then none
  else some
    { entity_type := "song", name := String.mk (jsTrim (splitYearSuffix rest).1),
      artist := none,
      timeframe := (((splitYearSuffix rest).2).map String.mk).getD "all",
      metric := "count", time_amount := none }

/-- Branch 3, `matchAlbum` (lines 45-143): album listening time. -/
def matchAlbumQuery (msg : List Char) : Option ChatQuery :=
  (timeHead msg).bind fun ur =>
  ((dropOptEd ((" to the album").toList) ur.2).bind dropCommaSpace).bind fun rest =>
  if rest.length = 0 then none
  else some
    { entity_type := "album", name := String.mk (jsTrim (splitYearSuffix rest).1),
      artist := none,
      timeframe := (((splitYearSuffix rest).2).map String.mk).getD "all",
      metric := "time", time_amount := some (String.mk ur.1) }

/-- Branch 4, `matchSong` (lines 49-172): song listening time. -/
def matchSongTimeQuery (msg : List Char) : Option ChatQuery :=
  (timeHead msg).bind fun ur =>
  ((dropOptEd ((" to the song").toList) ur.2).bind dropCommaSpace).bind fun rest =>
  if rest.length = 0 then none
  else some
    { entity_type := "song", name := String.mk (jsTrim (splitYearSuffix rest).1),
      artist := none,
      timeframe := (((splitYearSuffix rest).2).map String.mk).getD "all",
      metric := "time", time_amount := some (String.mk ur.1) }

/-- Branch 5, `matchArtist` (lines 53-201): artist listening time. -/
def matchArtistQuery (msg : List Char) : Option ChatQuery :=
  (timeHead msg).bind fun ur =>
  (dropOptEd ((" to ").toList) ur.2).bind fun rest =>
  if rest.length = 0 then none
  else some
    { entity_type := "artist", name := String.mk (jsTrim (splitYearSuffix rest).1),
      artist := none,
      timeframe := (((splitYearSuffix rest).2).map String.mk).getD "all",
      metric := "time", time_amount := some (String.mk ur.1) }

/-- Embedding of the branch cascade of the first-revision `handleSend`
(lines 56-216): the first matching pattern's query is issued; `none` when no
pattern matches (the help text is shown instead and no query is sent). -/
def handleSendModel (msg : List Char) : Option ChatQuery :=
  matchSongCountArtistQuery msg <|> matchSongCountQuery msg <|>
    matchAlbumQuery msg <|> matchSongTimeQuery msg <|> matchArtistQuery msg

/-- The year capture of the pattern branch that fires for `msg`: `none` when
no pattern matches, `some none` when the matching pattern captured no year,
`some (some y)` when it captured the four digits `y`. -/
def recognizedYear (msg : List Char) : Option (Option (List Char)) :=
  ((songCountRest msg).bind parseSongByYear).map (fun caps => caps.2.2) <|>
    ((songCountRest msg).bind fun rest =>
      if rest.length = 0 then none else some (splitYearSuffix rest).2) <|>
    ((timeHead msg).bind fun ur =>
      ((dropOptEd ((" to the album").toList) ur.2).bind dropCommaSpace).bind
        fun rest =>
      if rest.length = 0 then none else some (splitYearSuffix rest).2) <|>
    ((timeHead msg).bind fun ur =>
      ((dropOptEd ((" to the song").toList) ur.2).bind dropCommaSpace).bind
        fun rest =>
      if rest.length = 0 then none else some (splitYearSuffix rest).2) <|>
    ((timeHead msg).bind fun ur =>
      (dropOptEd ((" to ").toList) ur.2).bind fun rest =>
      if rest.length = 0 then none else some (splitYearSuffix rest).2)

/-- The property claim C8 states of one issued query against the year
capture of the pattern that fired: no captured year means timeframe `all`,
a captured year is passed through verbatim. -/
def timeframeMatches (q : ChatQuery) (yr : Option (List Char)) : Prop :=
  (yr = none → q.timeframe = "all") ∧
    ∀ y, yr = some y → q.timeframe = String.mk y

/-! # Theorems -/

theorem isValidFile_iff (name : List Char) :
    isValidFile name = true ↔ acceptSpecC5 name := by
  unfold isValidFile acceptSpecC5
  dsimp only
  split_ifs with h1 h2 h3 <;> simp_all

/-- C5: a selected file is accepted for ingestion if and only if its
lowercase name ends with `.json`, begins with `streaming_history_audio`,
and is not a system file; in particular every video streaming-history file
is discarded before upload. -/
theorem file_filter_correct :
    (∀ (files : List (List Char)) (f : List Char),
      f ∈ validFiles files ↔ f ∈ files ∧ acceptSpecC5 f) ∧
    (∀ name : List Char,
      chStartsWith (lowerName name) (("streaming_history_video").toList) = true →
        isValidFile name = false) := by
  constructor
  · intro files f
    rw [validFiles, List.mem_filter, isValidFile_iff]
  · intro name hvid
    rcases hb : isValidFile name with _ | _
    · rfl
    · exfalso
      have haud := ((isValidFile_iff name).mp hb).2.1
      have ha : (lowerName name).take (("streaming_history_audio").toList).length =
          ("streaming_history_audio").toList := of_decide_eq_true haud
      have hv : (lowerName name).take (("streaming_history_video").toList).length =
          ("streaming_history_video").toList := of_decide_eq_true hvid
      have hlen : (("streaming_history_audio").toList).length =
          (("streaming_history_video").toList).length := by decide
      rw [← hlen] at hv
      have : ("streaming_history_audio").toList = ("streaming_history_video").toList :=
        ha.symm.trans hv
      exact absurd this (by decide)

/-- Witness for C5 at concrete inputs: an audio streaming-history file is
kept, a video streaming-history file is discarded. -/
theorem file_filter_correct_witness :
    (("Streaming_History_Audio_2022_1.json").toList ∈
      validFiles [("Streaming_History_Audio_2022_1.json").toList,
        ("Streaming_History_Video_2022_2.json").toList] ↔
      ("Streaming_History_Audio_2022_1.json").toList ∈
        [("Streaming_History_Audio_2022_1.json").toList,
          ("Streaming_History_Video_2022_2.json").toList] ∧
        acceptSpecC5 (("Streaming_History_Audio_2022_1.json").toList)) ∧
    isValidFile (("Streaming_History_Video_2022_2.json").toList) = false :=
  ⟨file_filter_correct.1
      [("Streaming_History_Audio_2022_1.json").toList,
        ("Streaming_History_Video_2022_2.json").toList]
      (("Streaming_History_Audio_2022_1.json").toList),
    file_filter_correct.2 (("Streaming_History_Video_2022_2.json").toList)
      (by decide)⟩

/-- C9: for every intent parsed from the external interpreter with
entity type `song`, the `artist` field is forced to `null` when the message
does not contain the word `artist`, the `album` field is forced to `null`
when the message does not contain `album`, and no other field of the intent
is changed. -/
theorem song_intent_boundary_nulling (msg : List Char) (parsed : Intent)
    (hsong : parsed.entity_type = "song") :
    (chIncludes (lowerName msg) (("artist").toList) = false →
      (sanitizeParsedIntent msg parsed).artist = none) ∧
    (chIncludes (lowerName msg) (("album").toList) = false →
      (sanitizeParsedIntent msg parsed).album = none) ∧
    (sanitizeParsedIntent msg parsed).entity_type = parsed.entity_type ∧
    (sanitizeParsedIntent msg parsed).name = parsed.name ∧
    (sanitizeParsedIntent msg parsed).metric = parsed.metric ∧
    (sanitizeParsedIntent msg parsed).timeframe = parsed.timeframe ∧
    (sanitizeParsedIntent msg parsed).time_amount = parsed.time_amount := by
  obtain ⟨et, nm, ar, al, me, tf, ta⟩ := parsed
  simp only [Intent.entity_type] at hsong
  subst hsong
  unfold sanitizeParsedIntent
  rcases har : chIncludes (lowerName msg) (("artist").toList) with _ | _ <;>
    rcases hal : chIncludes (lowerName msg) (("album").toList) with _ | _ <;>
      simp_all

/-- Witness for C9 at a concrete input: a song question naming neither an
artist nor an album has both fields nulled before the query is issued. -/
theorem song_intent_boundary_nulling_witness :
    (sanitizeParsedIntent (("how many times did i listen to yesterday").toList)
      ⟨"song", "Yesterday", some "The Beatles", some "Help!", "count", "all",
        none⟩).artist = none ∧
    (sanitizeParsedIntent (("how many times did i listen to yesterday").toList)
      ⟨"song", "Yesterday", some "The Beatles", some "Help!", "count", "all",
        none⟩).album = none :=
  ⟨(song_intent_boundary_nulling
      (("how many times did i listen to yesterday").toList)
      ⟨"song", "Yesterday", some "The Beatles", some "Help!", "count", "all",
        none⟩ rfl).1 (by decide),
    (song_intent_boundary_nulling
      (("how many times did i listen to yesterday").toList)
      ⟨"song", "Yesterday", some "The Beatles", some "Help!", "count", "all",
        none⟩ rfl).2.1 (by decide)⟩

/-- C6: after `handleClearData` the daily series is empty, the all-time
stats hold empty lists for every entity type under both orderings, the three
cached session-storage keys are removed, the year filter over the cleared
series yields no data for every selection, and the cleared store's
aggregates are zero, so a fresh ingestion starts from zero. -/
theorem clear_data_resets (st : AppState) (ss : SessionStore) :
    (handleClearData st ss).1.data = [] ∧
    (handleClearData st ss).1.allTimeStats = some emptyAllStats ∧
    emptyAllStats.artists.time = [] ∧ emptyAllStats.artists.count = [] ∧
    emptyAllStats.songs.time = [] ∧ emptyAllStats.songs.count = [] ∧
    emptyAllStats.albums.time = [] ∧ emptyAllStats.albums.count = [] ∧
    (handleClearData st ss).2.1.spotifyData = none ∧
    (handleClearData st ss).2.1.allTimeStats = none ∧
    (handleClearData st ss).2.1.selectedYear = none ∧
    (∀ (y : String) (tz : Nat),
      filteredData (handleClearData st ss).1.data y tz = []) ∧
    qualCount [] = 0 ∧
    (∀ d : Ymd, dailyTotalSeconds [] d = 0) ∧
    (∀ etype metric : String, topTen [] etype metric = []) := by
  refine ⟨rfl, rfl, rfl, rfl, rfl, rfl, rfl, rfl, rfl, rfl, rfl,
    fun y tz => rfl, rfl, fun d => ?_, fun etype metric => ?_⟩
  · show round ((((0 : Nat) : ℚ)) / 1000) = 0
    norm_num
  · unfold topTen entityNames qualEvents
    split_ifs <;> simp

/-- C10: clearing data removes only the three cached dataset keys from
session storage and leaves the stored session id unchanged; the id is
replaced only when an upload stores a fresh session id, which touches no
other key. -/
theorem clear_data_session_id_frame (st : AppState) (ss : SessionStore)
    (sid : String) :
    (handleClearData st ss).2.1.sessionId = ss.sessionId ∧
    (handleClearData st ss).2.1.spotifyData = none ∧
    (handleClearData st ss).2.1.allTimeStats = none ∧
    (handleClearData st ss).2.1.selectedYear = none ∧
    (storeSessionId ss sid).sessionId = some sid ∧
    (storeSessionId ss sid).spotifyData = ss.spotifyData ∧
    (storeSessionId ss sid).allTimeStats = ss.allTimeStats ∧
    (storeSessionId ss sid).selectedYear = ss.selectedYear :=
  ⟨rfl, rfl, rfl, rfl, rfl, rfl, rfl, rfl⟩

theorem dailyDateLe_trans (a b c : BackendDaily) :
    dailyDateLe a b → dailyDateLe b c → dailyDateLe a c := by
  simp only [dailyDateLe, decide_eq_true_eq]
  omega

theorem dailyDateLe_total (a b : BackendDaily) :
    dailyDateLe a b || dailyDateLe b a := by
  simp only [dailyDateLe, Bool.or_eq_true, decide_eq_true_eq]
  omega

/-- C7: the series `handleUploadComplete` builds is the uploaded
daily-aggregate array sorted in ascending date order, with each entry's
displayed value `Math.round(total_seconds)`; over the spec-modelled backend
the displayed value for each date is exactly
`round(sum(ms_played)/1000)` of its qualifying events. -/
theorem upload_series_sorted_rounded (dataArray : List BackendDaily) :
    List.Pairwise
      (fun a b : HeatEntry => daysFromCivil a.date ≤ daysFromCivil b.date)
      (formatDailyEntries dataArray) ∧
    List.Perm (formatDailyEntries dataArray)
      (dataArray.map fun e => { date := e.date, count := round e.total_seconds }) ∧
    (∀ s : List RawEvent,
      List.Perm (formatDailyEntries (backendDailySeries s))
        ((sessionDates s).map fun d =>
          { date := d, count := dailyTotalSeconds s d })) := by
  have hperm : ∀ l : List BackendDaily,
      List.Perm (formatDailyEntries l)
        (l.map fun e => ({ date := e.date, count := round e.total_seconds } :
          HeatEntry)) := fun l =>
    (List.mergeSort_perm l dailyDateLe).map _
  refine ⟨?_, hperm dataArray, ?_⟩
  · unfold formatDailyEntries
    have hsorted := List.sorted_mergeSort dailyDateLe_trans dailyDateLe_total dataArray
    refine hsorted.map _ ?_
    intro a b hab
    simpa [dailyDateLe] using hab
  · intro s
    refine (hperm (backendDailySeries s)).trans ?_
    have h3 : (backendDailySeries s).map
        (fun e => ({ date := e.date, count := round e.total_seconds } : HeatEntry)) =
        (sessionDates s).map fun d => { date := d, count := dailyTotalSeconds s d } := by
      unfold backendDailySeries
      rw [List.map_map]
      refine List.map_congr_left fun d _ => ?_
      show ({ date := d, count := round ((dailyTotalSeconds s d : ℚ)) } : HeatEntry) = _
      rw [round_intCast]
    rw [h3]

theorem uploadLoop_all_ok (resp : Nat → Option (Option (List α))) :
    ∀ (l : List Nat) (acc : List α), (∀ i ∈ l, resp i ≠ none) →
      uploadLoop resp l acc = some (acc ++ (l.map (chunkData resp)).flatten) := by
  intro l
  induction l with
  | nil => intro acc _; simp [uploadLoop]
  | cons i rest ih =>
      intro acc h
      have hi : resp i ≠ none := h i (List.mem_cons_self i rest)
      rcases hri : resp i with _ | d
      · exact absurd hri hi
      · simp only [uploadLoop, hri]
        rw [ih (acc ++ d.getD []) fun j hj => h j (List.mem_cons_of_mem i hj)]
        simp [chunkData, hri]

theorem sentChunks_all_ok (resp : Nat → Option (Option (List α))) :
    ∀ l : List Nat, (∀ i ∈ l, resp i ≠ none) → sentChunks resp l = l := by
  intro l
  induction l with
  | nil => intro _; rfl
  | cons i rest ih =>
      intro h
      have hi : resp i ≠ none := h i (List.mem_cons_self i rest)
      rcases hri : resp i with _ | d
      · exact absurd hri hi
      · simp only [sentChunks, hri]
        rw [ih fun j hj => h j (List.mem_cons_of_mem i hj)]

theorem uploadLoop_fail (resp : Nat → Option (Option (List α))) {x : Nat}
    (hx : resp x = none) :
    ∀ l : List Nat, x ∈ l → ∀ acc : List α, uploadLoop resp l acc = none := by
  intro l
  induction l with
  | nil => intro h; cases h
  | cons i rest ih =>
      intro hmem acc
      rcases hri : resp i with _ | d
      · simp only [uploadLoop, hri]
      · rcases List.mem_cons.mp hmem with rfl | hmem'
        · rw [hri] at hx
          cases hx
        · simp only [uploadLoop, hri]
          exact ih hmem' _

theorem sentChunks_fail (resp : Nat → Option (Option (List α))) {x : Nat}
    (hx : resp x = none) :
    ∀ l1 l2 : List Nat, (∀ i ∈ l1, resp i ≠ none) →
      sentChunks resp (l1 ++ x :: l2) = l1 ++ [x] := by
  intro l1
  induction l1 with
  | nil =>
      intro l2 _
      rw [List.nil_append]
      simp only [sentChunks, hx]
      rfl
  | cons i rest ih =>
      intro l2 h
      have hi : resp i ≠ none := h i (List.mem_cons_self i rest)
      rcases hri : resp i with _ | d
      · exact absurd hri hi
      · rw [List.cons_append]
        simp only [sentChunks, hri]
        rw [ih l2 fun j hj => h j (List.mem_cons_of_mem i hj)]
        rfl

/-- C4: if session creation fails nothing is uploaded and no result is
produced; if chunk `i` is the first whose upload fails, the chunks after `i`
are never sent and the upload-complete callback is never invoked; when every
chunk succeeds the callback receives the full concatenation of all chunks'
data — the caller observes either the full result or no result at all. -/
theorem upload_all_or_nothing (sessionOk : Bool)
    (resp : Nat → Option (Option (List α))) (total : Nat) :
    (sessionOk = false → uploadProcess sessionOk resp total = ([], none)) ∧
    (∀ i, i < total → resp i = none → (∀ j, j < i → resp j ≠ none) →
      uploadProcess true resp total = (List.range (i + 1), none)) ∧
    ((∀ i, i < total → resp i ≠ none) →
      uploadProcess true resp total =
        (List.range total,
          some ((List.range total).map (chunkData resp)).flatten)) := by
  refine ⟨fun hko => by simp [uploadProcess, hko], ?_, ?_⟩
  · intro i hi hfail hok
    obtain ⟨k, rfl⟩ : ∃ k, total = i + 1 + k := ⟨total - (i + 1), by omega⟩
    have hsplit : List.range (i + 1 + k) =
        List.range i ++ i :: (List.range k).map (i + 1 + ·) := by
      rw [List.range_add, List.range_succ, List.append_assoc, List.singleton_append]
    have h1 : ∀ j ∈ List.range i, resp j ≠ none := fun j hj =>
      hok j (List.mem_range.mp hj)
    simp only [uploadProcess, if_pos]
    rw [hsplit, sentChunks_fail resp hfail _ _ h1,
      uploadLoop_fail resp hfail _
        (List.mem_append_right _ (List.mem_cons_self _ _)) [],
      ← List.range_succ]
  · intro hok
    have h1 : ∀ j ∈ List.range total, resp j ≠ none := fun j hj =>
      hok j (List.mem_range.mp hj)
    simp only [uploadProcess, if_pos]
    rw [sentChunks_all_ok resp _ h1, uploadLoop_all_ok resp _ [] h1,
      List.nil_append]

theorem jsSlice_eq_drop_take (l : List α) (start r : Nat) :
    jsSlice l start (min (start + r) l.length) = (l.drop start).take r := by
  unfold jsSlice
  rcases le_total (start + r) l.length with h | h
  · rw [min_eq_left h, List.drop_take]
    congr 1
    omega
  · rw [min_eq_right h, List.take_length, List.take_of_length_le]
    simp
    omega

theorem join_slices (l : List α) (r : Nat) :
    ∀ tc, ((List.range tc).map fun i =>
      jsSlice l (i * r) (min (i * r + r) l.length)).flatten = l.take (tc * r) := by
  intro tc
  induction tc with
  | zero => simp
  | succ n ih =>
      rw [List.range_succ, List.map_append, List.flatten_append, ih]
      simp only [List.map_cons, List.map_nil, List.flatten_cons, List.flatten_nil,
        List.append_nil, jsSlice_eq_drop_take]
      rw [Nat.succ_mul, List.take_add]

/-- C1: for every uploaded JSON file whose byte size exceeds the 8MB chunk
limit and that parses to an array of records, the splitter produces
`ceil(size / 8MB)` chunks, each tagged with the original filename, its chunk
index and the chunk count, and concatenating the chunks' record arrays in
increasing chunk-index order restores the original record array, so every
record lands in exactly one chunk and none is duplicated or dropped. -/
theorem large_file_chunking {α : Type} (name : List Char) (size : Nat)
    (data : List α) (h : MAX_CHUNK_SIZE < size) :
    (splitFile name size data).length = (size + MAX_CHUNK_SIZE - 1) / MAX_CHUNK_SIZE ∧
    ((splitFile name size data).map fun c => (c.originalName, c.totalChunks)) =
      List.replicate ((size + MAX_CHUNK_SIZE - 1) / MAX_CHUNK_SIZE)
        (name, (size + MAX_CHUNK_SIZE - 1) / MAX_CHUNK_SIZE) ∧
    ((splitFile name size data).map (·.chunkIndex)) =
      List.range ((size + MAX_CHUNK_SIZE - 1) / MAX_CHUNK_SIZE) ∧
    ((splitFile name size data).map (·.records)).flatten = data := by
  have hns : ¬ size ≤ MAX_CHUNK_SIZE := by omega
  set tc := (size + MAX_CHUNK_SIZE - 1) / MAX_CHUNK_SIZE with htc
  set rpc := (data.length + tc - 1) / tc with hrpc
  have hcs : splitFile name size data =
      (List.range tc).map fun i =>
        { records := jsSlice data (i * rpc) (min (i * rpc + rpc) data.length)
          originalName := name
          chunkIndex := i
          totalChunks := tc } := by
    simp [splitFile, hns]
  have htcpos : 0 < tc := by
    have hM : MAX_CHUNK_SIZE = 8388608 := rfl
    rw [htc, hM]
    rw [hM] at h
    omega
  refine ⟨by rw [hcs]; simp, ?_, ?_, ?_⟩
  · rw [hcs, List.map_map]
    have hrw : ((fun c : Chunk α => (c.originalName, c.totalChunks)) ∘ fun i =>
        ({ records := jsSlice data (i * rpc) (min (i * rpc + rpc) data.length),
           originalName := name, chunkIndex := i, totalChunks := tc } : Chunk α)) =
        fun _ => (name, tc) := rfl
    rw [hrw]
    simp
  · rw [hcs, List.map_map]
    have hrw : ((fun c : Chunk α => c.chunkIndex) ∘ fun i =>
        ({ records := jsSlice data (i * rpc) (min (i * rpc + rpc) data.length),
           originalName := name, chunkIndex := i, totalChunks := tc } : Chunk α)) =
        fun i => i := rfl
    rw [hrw]
    exact List.map_id' _
  · rw [hcs, List.map_map]
    have hrw : ((fun c : Chunk α => c.records) ∘ fun i =>
        ({ records := jsSlice data (i * rpc) (min (i * rpc + rpc) data.length),
           originalName := name, chunkIndex := i, totalChunks := tc } : Chunk α)) =
        fun i => jsSlice data (i * rpc) (min (i * rpc + rpc) data.length) := rfl
    rw [hrw, join_slices data rpc tc]
    apply List.take_of_length_le
    have h3 : data.length + tc - 1 < (rpc + 1) * tc :=
      (Nat.div_lt_iff_lt_mul htcpos).mp (hrpc ▸ Nat.lt_succ_self rpc)
    have h4 : (rpc + 1) * tc = rpc * tc + tc := by ring
    rw [h4] at h3
    rw [Nat.mul_comm tc rpc]
    generalize rpc * tc = P at h3 ⊢
    omega

/-- Witness for C1 at a concrete input: a 3-record file of `2 * 8MB + 5`
bytes is split into 3 tagged chunks that reassemble to the original array. -/
theorem large_file_chunking_witness :
    (splitFile ("f.json").toList (2 * MAX_CHUNK_SIZE + 5) [0, 1, 2]).length =
      ((2 * MAX_CHUNK_SIZE + 5) + MAX_CHUNK_SIZE - 1) / MAX_CHUNK_SIZE ∧
    ((splitFile ("f.json").toList (2 * MAX_CHUNK_SIZE + 5) [0, 1, 2]).map
        fun c => (c.originalName, c.totalChunks)) =
      List.replicate (((2 * MAX_CHUNK_SIZE + 5) + MAX_CHUNK_SIZE - 1) / MAX_CHUNK_SIZE)
        (("f.json").toList,
          ((2 * MAX_CHUNK_SIZE + 5) + MAX_CHUNK_SIZE - 1) / MAX_CHUNK_SIZE) ∧
    ((splitFile ("f.json").toList (2 * MAX_CHUNK_SIZE + 5) [0, 1, 2]).map
        (·.chunkIndex)) =
      List.range (((2 * MAX_CHUNK_SIZE + 5) + MAX_CHUNK_SIZE - 1) / MAX_CHUNK_SIZE) ∧
    ((splitFile ("f.json").toList (2 * MAX_CHUNK_SIZE + 5) [0, 1, 2]).map
      (·.records)).flatten = [0, 1, 2] :=
  large_file_chunking (("f.json").toList) (2 * MAX_CHUNK_SIZE + 5) [0, 1, 2]
    (by decide)

/-! ## Idempotent ingestion (claim C2) -/

theorem mem_applyEvent {s : List RawEvent} {x : RawEvent} (e : RawEvent)
    (hx : x ∈ s) : x ∈ applyEvent s e := by
  unfold applyEvent
  split
  · exact hx
  · exact List.mem_append_left _ hx

theorem mem_ingestChunk {x : RawEvent} (c : List RawEvent) :
    ∀ s : List RawEvent, x ∈ s → x ∈ ingestChunk s c := by
  induction c with
  | nil => intro s hx; exact hx
  | cons e c ih => intro s hx; exact ih (applyEvent s e) (mem_applyEvent e hx)

theorem key_mem_applyEvent (s : List RawEvent) (e : RawEvent) :
    ∃ x ∈ applyEvent s e, dedupeKey x = dedupeKey e := by
  unfold applyEvent
  split
  · next hany =>
      rcases List.any_eq_true.mp hany with ⟨x, hx, hk⟩
      exact ⟨x, hx, of_decide_eq_true hk⟩
  · exact ⟨e, List.mem_append_right _ (List.mem_singleton_self e), rfl⟩

theorem key_mem_ingestChunk {e : RawEvent} (c : List RawEvent) (he : e ∈ c) :
    ∀ s : List RawEvent, ∃ x ∈ ingestChunk s c, dedupeKey x = dedupeKey e := by
  induction c with
  | nil => cases he
  | cons a c ih =>
      intro s
      rcases List.mem_cons.mp he with rfl | he'
      · rcases key_mem_applyEvent s e with ⟨x, hx, hk⟩
        exact ⟨x, mem_ingestChunk c _ hx, hk⟩
      · exact ih he' (applyEvent s a)

theorem applyEvent_of_key_mem {s : List RawEvent} {e : RawEvent}
    (h : ∃ x ∈ s, dedupeKey x = dedupeKey e) : applyEvent s e = s := by
  unfold applyEvent
  rw [if_pos]
  rcases h with ⟨x, hx, hk⟩
  exact List.any_eq_true.mpr ⟨x, hx, decide_eq_true hk⟩

theorem ingestChunk_idem (c : List RawEvent) :
    ∀ s : List RawEvent, ingestChunk (ingestChunk s c) c = ingestChunk s c := by
  induction c with
  | nil => intro s; rfl
  | cons e c ih =>
      intro s
      show ingestChunk (applyEvent (ingestChunk (applyEvent s e) c) e) c =
        ingestChunk (applyEvent s e) c
      have hk : ∃ x ∈ ingestChunk (applyEvent s e) c, dedupeKey x = dedupeKey e := by
        rcases key_mem_applyEvent s e with ⟨x, hx, hxk⟩
        exact ⟨x, mem_ingestChunk c _ hx, hxk⟩
      rw [applyEvent_of_key_mem hk]
      exact ih (applyEvent s e)

/-- C2: re-submitting an already-applied chunk to ingestion leaves the
session's store — and with it the qualifying-event count, every daily
aggregate, and every top-N entity ranking — unchanged: ingestion is
idempotent under the deterministic dedupe key (timestamp, track name,
duration). -/
theorem reingest_chunk_idempotent (store chunk : List RawEvent) :
    ingestChunk (ingestChunk store chunk) chunk = ingestChunk store chunk ∧
    qualCount (ingestChunk (ingestChunk store chunk) chunk) =
      qualCount (ingestChunk store chunk) ∧
    (∀ d : Ymd, dailyTotalSeconds (ingestChunk (ingestChunk store chunk) chunk) d =
      dailyTotalSeconds (ingestChunk store chunk) d) ∧
    (∀ etype metric : String,
      topTen (ingestChunk (ingestChunk store chunk) chunk) etype metric =
        topTen (ingestChunk store chunk) etype metric) := by
  have h := ingestChunk_idem chunk store
  exact ⟨h, by rw [h], fun d => by rw [h], fun etype metric => by rw [h]⟩

/-- Witness for C4 at a concrete input: with chunk 2's upload failing, only
chunks 0, 1, 2 are sent and no result is produced. -/
theorem upload_all_or_nothing_witness :
    uploadProcess true
      (fun n => if n = 2 then none else some (some [n])) 5 =
      (List.range 3, none) :=
  (upload_all_or_nothing true
      (fun n => if n = 2 then none else some (some [n])) 5).2.1 2 (by omega)
    (by simp) (by intro j hj; interval_cases j <;> simp)

set_option maxRecDepth 4000 in
theorem yoeEndsCheckAll_true : yoeEndsCheckAll 400 = true := by decide

theorem fCorr_mono : Monotone fCorr :=
  monotone_nat_of_le_succ fun D => by unfold fCorr; omega

theorem yoeEndsCheckAll_spec :
    ∀ k, yoeEndsCheckAll k = true → ∀ yoe, yoe < k → yoeEndsCheck yoe = true := by
  intro k
  induction k with
  | zero => intro _ yoe h; omega
  | succ j ih =>
      intro h yoe hy
      simp only [yoeEndsCheckAll, Bool.and_eq_true] at h
      rcases Nat.lt_succ_iff_lt_or_eq.mp hy with h' | rfl
      · exact ih h.2 yoe h'
      · exact h.1

theorem yoe_recovery (yoe doy : Nat) (h1 : yoe < 400)
    (h2 : doy ≤ 364 ∨ (doy = 365 ∧ (yoe + 1) % 4 = 0 ∧
      ((yoe + 1) % 100 ≠ 0 ∨ yoe = 399))) :
    ((yoe * 365 + yoe / 4 - yoe / 100 + doy) -
        (yoe * 365 + yoe / 4 - yoe / 100 + doy) / 1460 +
        (yoe * 365 + yoe / 4 - yoe / 100 + doy) / 36524 -
        (yoe * 365 + yoe / 4 - yoe / 100 + doy) / 146096) / 365 = yoe := by
  have hend := yoeEndsCheckAll_spec 400 yoeEndsCheckAll_true yoe h1
  unfold yoeEndsCheck at hend
  simp only [Bool.and_eq_true, decide_eq_true_eq] at hend
  obtain ⟨e1, e2⟩ := hend
  show fCorr (yoe * 365 + yoe / 4 - yoe / 100 + doy) / 365 = yoe
  have hdoy2 : doy ≤ cycleLen yoe - 1 := by
    unfold cycleLen
    split_ifs <;> omega
  have hlo : fCorr (yoe * 365 + yoe / 4 - yoe / 100) ≤
      fCorr (yoe * 365 + yoe / 4 - yoe / 100 + doy) :=
    fCorr_mono (Nat.le_add_right _ _)
  have hhi : fCorr (yoe * 365 + yoe / 4 - yoe / 100 + doy) ≤
      fCorr (yoe * 365 + yoe / 4 - yoe / 100 + (cycleLen yoe - 1)) :=
    fCorr_mono (by omega)
  have l1 : fCorr (yoe * 365 + yoe / 4 - yoe / 100) / 365 ≤
      fCorr (yoe * 365 + yoe / 4 - yoe / 100 + doy) / 365 :=
    Nat.div_le_div_right hlo
  have l2 : fCorr (yoe * 365 + yoe / 4 - yoe / 100 + doy) / 365 ≤
      fCorr (yoe * 365 + yoe / 4 - yoe / 100 + (cycleLen yoe - 1)) / 365 :=
    Nat.div_le_div_right hhi
  omega

theorem yearFromDays_encode (Y doy : Nat)
    (hdoy : doy ≤ 364 ∨ (doy = 365 ∧ (Y + 1) % 4 = 0 ∧
      ((Y + 1) % 100 ≠ 0 ∨ (Y + 1) % 400 = 0))) :
    yearFromDays (Y / 400 * 146097 +
      (Y % 400 * 365 + Y % 400 / 4 - Y % 400 / 100 + doy)) =
      if 306 ≤ doy then Y + 1 else Y := by
  have hyoe : Y % 400 < 400 := Nat.mod_lt _ (by norm_num)
  have hrec := yoe_recovery (Y % 400) doy hyoe (by omega)
  unfold yearFromDays
  dsimp only
  rw [show (Y / 400 * 146097 +
      (Y % 400 * 365 + Y % 400 / 4 - Y % 400 / 100 + doy)) / 146097 =
      Y / 400 from by omega]
  rw [show (Y / 400 * 146097 +
      (Y % 400 * 365 + Y % 400 / 4 - Y % 400 / 100 + doy)) % 146097 =
      Y % 400 * 365 + Y % 400 / 4 - Y % 400 / 100 + doy from by omega]
  rw [hrec]
  split_ifs <;> omega

/-- The year round trip of the embedded calendar arithmetic: for a valid
date, `yearFromDays` recovers the calendar year from the serial day
number. -/
theorem yearFromDays_daysFromCivil (dt : Ymd) (hv : validDate dt) :
    yearFromDays (daysFromCivil dt) = dt.year := by
  obtain ⟨y, m, d⟩ := dt
  unfold validDate at hv
  obtain ⟨hm1, hm2, hd1, hd4, hy1⟩ := hv
  simp only at hm1 hm2 hd1 hd4 hy1
  simp only [daysInMonth, isLeapYear, decide_eq_true_eq] at hd4
  unfold daysFromCivil
  dsimp only
  rw [yearFromDays_encode]
  · split_ifs at hd4 ⊢ <;> omega
  · split_ifs at hd4 ⊢ <;> omega

/-- Counterexample to C3 as stated: in an environment 300 minutes west of
UTC (for example US Eastern in winter), the entry dated 2023-01-01 — whose
UTC date falls in 2023 — is excluded from the year-2023 series, because the
filter reads `getFullYear()` of the local-time instant, not the UTC calendar
date. -/
theorem year_filter_not_utc :
    filteredData [{ date := ⟨2023, 1, 1⟩, count := 100 }] "2023" 300 = [] ∧
    (⟨2023, 1, 1⟩ : Ymd).year = 2023 ∧
    jsDateFullYear ⟨2023, 1, 1⟩ 0 = 2023 ∧
    jsDateFullYear ⟨2023, 1, 1⟩ 300 = 2022 := by
  refine ⟨?_, rfl, ?_, ?_⟩ <;> decide

/-- C3 (amended): a daily entry is included in the year-restricted series
iff the selected year equals the `getFullYear()` of the entry's UTC-midnight
instant in the environment's local timezone; when the environment's UTC
offset is zero this is exactly the entry's UTC calendar year, so the
UTC-date reading of the claim holds only in a UTC environment (westward
environments shift January 1 entries to the previous year). -/
theorem year_filter_utc_when_offset_zero (data : List HeatEntry) (Y : String)
    (e : HeatEntry) (hv : validDate e.date) :
    e ∈ filteredData data Y 0 ↔ e ∈ data ∧ toString e.date.year = Y := by
  unfold filteredData
  rw [List.mem_filter]
  have h0 : jsDateFullYear e.date 0 = e.date.year := by
    unfold jsDateFullYear
    rw [Nat.sub_zero, Nat.mul_div_cancel _ (by norm_num)]
    exact yearFromDays_daysFromCivil e.date hv
  rw [h0]
  simp [beq_iff_eq]

/-- Witness for the amended C3 at a concrete input: a valid 2023 entry is in
the 2023 series at offset zero iff it is in the data. -/
theorem year_filter_utc_when_offset_zero_witness :
    (⟨⟨2023, 5, 17⟩, 4⟩ : HeatEntry) ∈
      filteredData [⟨⟨2023, 5, 17⟩, 4⟩] "2023" 0 ↔
    (⟨⟨2023, 5, 17⟩, 4⟩ : HeatEntry) ∈ [(⟨⟨2023, 5, 17⟩, 4⟩ : HeatEntry)] ∧
      toString (2023 : Nat) = "2023" :=
  year_filter_utc_when_offset_zero [⟨⟨2023, 5, 17⟩, 4⟩] "2023"
    ⟨⟨2023, 5, 17⟩, 4⟩ (by unfold validDate; decide)

theorem orElse_align_step {q : ChatQuery}
    (A : Option ChatQuery) (B : Option (Option (List Char)))
    (restQ : Option ChatQuery) (restY : Option (Option (List Char)))
    (hAB : (A = none ↔ B = none) ∧
      ∀ q', A = some q' → ∃ yr, B = some yr ∧ timeframeMatches q' yr)
    (hrest : restQ = some q → ∃ yr, restY = some yr ∧ timeframeMatches q yr)
    (h : (A <|> restQ) = some q) :
    ∃ yr, (B <|> restY) = some yr ∧ timeframeMatches q yr := by
  rcases hA : A with _ | a
  · rw [hA, Option.none_orElse] at h
    rw [hAB.1.mp hA, Option.none_orElse]
    exact hrest h
  · rw [hA, Option.some_orElse] at h
    obtain ⟨yr, hB, hrel⟩ := hAB.2 a hA
    rw [hB, Option.some_orElse]
    exact ⟨yr, rfl, Option.some.inj h ▸ hrel⟩

theorem restBranch_align (O : Option (List Char)) (build : List Char → ChatQuery)
    (hbuild : ∀ rest, (build rest).timeframe =
      (((splitYearSuffix rest).2).map String.mk).getD "all") :
    ((O.bind fun rest => if rest.length = 0 then none else some (build rest)) =
        none ↔
      (O.bind fun rest => if rest.length = 0 then none
        else some (splitYearSuffix rest).2) = none) ∧
    ∀ q', (O.bind fun rest =>
        if rest.length = 0 then none else some (build rest)) = some q' →
      ∃ yr, (O.bind fun rest => if rest.length = 0 then none
          else some (splitYearSuffix rest).2) = some yr ∧
        timeframeMatches q' yr := by
  rcases O with _ | rest
  · simp
  · simp only [Option.some_bind]
    by_cases hz : rest.length = 0
    · rw [if_pos hz, if_pos hz]
      simp
    · rw [if_neg hz, if_neg hz]
      refine ⟨by simp, fun q' hq => ⟨(splitYearSuffix rest).2, rfl, ?_, ?_⟩⟩
      · intro hn
        rw [← Option.some.inj hq, hbuild rest, hn]
        rfl
      · intro y hy
        rw [← Option.some.inj hq, hbuild rest, hy]
        rfl

theorem align_songCountArtist (msg : List Char) :
    (matchSongCountArtistQuery msg = none ↔
      ((songCountRest msg).bind parseSongByYear).map (fun caps => caps.2.2) =
        none) ∧
    ∀ q', matchSongCountArtistQuery msg = some q' →
      ∃ yr, ((songCountRest msg).bind parseSongByYear).map
          (fun caps => caps.2.2) = some yr ∧
        timeframeMatches q' yr := by
  unfold matchSongCountArtistQuery
  rcases songCountRest msg with _ | rest
  · simp
  · simp only [Option.some_bind]
    rcases parseSongByYear rest with _ | caps
    · simp
    · constructor
      · simp
      · intro q' hq
        simp only [Option.map_some'] at hq ⊢
        obtain rfl := Option.some.inj hq
        refine ⟨caps.2.2, rfl, fun hn => ?_, fun y hy => ?_⟩
        · show ((caps.2.2.map String.mk).getD "all") = "all"
          rw [hn]
          rfl
        · show ((caps.2.2.map String.mk).getD "all") = String.mk y
          rw [hy]
          rfl

theorem align_songCount (msg : List Char) :
    (matchSongCountQuery msg = none ↔
      ((songCountRest msg).bind fun rest =>
        if rest.length = 0 then none else some (splitYearSuffix rest).2) =
        none) ∧
    ∀ q', matchSongCountQuery msg = some q' →
      ∃ yr, ((songCountRest msg).bind fun rest =>
          if rest.length = 0 then none else some (splitYearSuffix rest).2) =
          some yr ∧
        timeframeMatches q' yr := by
  unfold matchSongCountQuery
  exact restBranch_align (songCountRest msg) _ fun rest => rfl

theorem align_album (msg : List Char) :
    (matchAlbumQuery msg = none ↔
      ((timeHead msg).bind fun ur =>
        ((dropOptEd ((" to the album").toList) ur.2).bind dropCommaSpace).bind
          fun rest =>
        if rest.length = 0 then none else some (splitYearSuffix rest).2) =
        none) ∧
    ∀ q', matchAlbumQuery msg = some q' →
      ∃ yr, ((timeHead msg).bind fun ur =>
          ((dropOptEd ((" to the album").toList) ur.2).bind dropCommaSpace).bind
            fun rest =>
          if rest.length = 0 then none else some (splitYearSuffix rest).2) =
          some yr ∧
        timeframeMatches q' yr := by
  unfold matchAlbumQuery
  rcases timeHead msg with _ | ur
  · simp
  · simp only [Option.some_bind]
    exact restBranch_align _ _ fun rest => rfl

theorem align_songTime (msg : List Char) :
    (matchSongTimeQuery msg = none ↔
      ((timeHead msg).bind fun ur =>
        ((dropOptEd ((" to the song").toList) ur.2).bind dropCommaSpace).bind
          fun rest =>
        if rest.length = 0 then none else some (splitYearSuffix rest).2) =
        none) ∧
    ∀ q', matchSongTimeQuery msg = some q' →
      ∃ yr, ((timeHead msg).bind fun ur =>
          ((dropOptEd ((" to the song").toList) ur.2).bind dropCommaSpace).bind
            fun rest =>
          if rest.length = 0 then none else some (splitYearSuffix rest).2) =
          some yr ∧
        timeframeMatches q' yr := by
  unfold matchSongTimeQuery
  rcases timeHead msg with _ | ur
  · simp
  · simp only [Option.some_bind]
    exact restBranch_align _ _ fun rest => rfl

theorem align_artist (msg : List Char) :
    (matchArtistQuery msg = none ↔
      ((timeHead msg).bind fun ur =>
        (dropOptEd ((" to ").toList) ur.2).bind fun rest =>
        if rest.length = 0 then none else some (splitYearSuffix rest).2) =
        none) ∧
    ∀ q', matchArtistQuery msg = some q' →
      ∃ yr, ((timeHead msg).bind fun ur =>
          (dropOptEd ((" to ").toList) ur.2).bind fun rest =>
          if rest.length = 0 then none else some (splitYearSuffix rest).2) =
          some yr ∧
        timeframeMatches q' yr := by
  unfold matchArtistQuery
  rcases timeHead msg with _ | ur
  · simp
  · simp only [Option.some_bind]
    exact restBranch_align _ _ fun rest => rfl

/-- C8: for every chatbot message matched by one of the recognized question
patterns, the query issued to the resolver carries timeframe `"all"` exactly
when the pattern captured no 4-digit year, and carries the captured year
verbatim when one is given. -/
theorem chat_query_timeframe (msg : List Char) (q : ChatQuery)
    (h : handleSendModel msg = some q) :
    ∃ yr, recognizedYear msg = some yr ∧
      (yr = none → q.timeframe = "all") ∧
      (∀ y, yr = some y → q.timeframe = String.mk y) := by
  unfold handleSendModel at h
  unfold recognizedYear
  exact orElse_align_step _ _ _ _ (align_songCountArtist msg)
    (fun h2 => orElse_align_step _ _ _ _ (align_songCount msg)
      (fun h3 => orElse_align_step _ _ _ _ (align_album msg)
        (fun h4 => orElse_align_step _ _ _ _ (align_songTime msg)
          (fun h5 => (align_artist msg).2 q h5) h4) h3) h2) h

/-- Witness for C8 at a concrete input: the artist-time question naming the
year 2016 is recognized and its query carries timeframe `"2016"`. -/
theorem chat_query_timeframe_witness :
    ∃ yr, recognizedYear (("How many hours did I listen to Drake in 2016").toList) =
        some yr ∧
      (yr = none →
        ({ entity_type := "artist", name := "Drake", artist := none,
           timeframe := "2016", metric := "time",
           time_amount := some "hours" } : ChatQuery).timeframe = "all") ∧
      (∀ y, yr = some y →
        ({ entity_type := "artist", name := "Drake", artist := none,
           timeframe := "2016", metric := "time",
           time_amount := some "hours" } : ChatQuery).timeframe = String.mk y) :=
  chat_query_timeframe (("How many hours did I listen to Drake in 2016").toList)
    { entity_type := "artist", name := "Drake", artist := none,
      timeframe := "2016", metric := "time", time_amount := some "hours" }
    (by decide)

end Rewindify
